import Mathlib

/-!
Shallow embedding of the asynchronous shader compilation / linking / reflection
pipeline of `ShaderGLImpl.cpp` (DiligentCore OpenGL backend).

The GL driver is modelled as an explicit environment record (`Driver`) holding
the answers the driver would give to the completion-status and result queries,
together with the info log text and the reflection data.  The configuration
fixed at builder construction is `BuilderCfg`.  Log / trace side effects are
recorded as boolean flags in the result records; `LOG_ERROR_AND_THROW` is
modelled by a `raised` flag that aborts the rest of the tick, mirroring C++
exception propagation.
-/

namespace ShaderGL

/-- Builder states, `ShaderGLImpl::ShaderBuilder::State`. -/
inductive State where
  | Default
  | Compiling
  | Linking
  | Complete
  | Failed
  deriving DecidableEq, Repr

/-- Shader source language tag (subset of `SHADER_SOURCE_LANGUAGE`). -/
inductive SHADER_SOURCE_LANGUAGE where
  | DEFAULT
  | HLSL
  | GLSL
  | GLSL_VERBATIM
  | MSL
  deriving DecidableEq, Repr

/-- Pipeline resource flag passed to `ShaderResourcesGL::LoadUniforms`. -/
inductive PIPELINE_RESOURCE_FLAG where
  | NONE
  | COMBINED_SAMPLER
  deriving DecidableEq, Repr

/-- Shader status returned by `ShaderGLImpl::GetStatus`. -/
inductive SHADER_STATUS where
  | COMPILING
  | READY
  | FAILED
  deriving DecidableEq, Repr

/-- One reflected resource entry (abstracted): a name and, when the resource is
a uniform buffer whose layout was loaded, its layout description. -/
structure ResourceVar where
  name : String
  cbLayout : Option String
  deriving DecidableEq, Repr

/-- The reflection data (`ShaderResourcesGL`) produced by `LoadUniforms`:
the sampler-combining flag and constant-buffer-reflection flag it was invoked
with, and the reflected variables. -/
structure ShaderResourcesGL where
  samplerFlag : PIPELINE_RESOURCE_FLAG
  loadConstantBufferReflection : Bool
  vars : List ResourceVar
  deriving DecidableEq, Repr

/-- Configuration fixed when the builder is constructed
(`ShaderBuilder::ShaderBuilder` plus the facade fields it reads):
`asyncFlag` is `(ShaderCI.CompileFlags & SHADER_COMPILE_FLAG_ASYNCHRONOUS) != 0`,
`deviceAsyncSupport` is `Features.AsyncShaderCompilation`,
`wantCompilerOutput` is `GLShaderCI.ppCompilerOutput != nullptr`,
`separablePrograms` is `Features.SeparablePrograms`,
`source` is `m_GLSLSourceString`. -/
structure BuilderCfg where
  loadConstantBufferReflection : Bool
  asyncFlag : Bool
  deviceAsyncSupport : Bool
  wantCompilerOutput : Bool
  separablePrograms : Bool
  sourceLanguage : SHADER_SOURCE_LANGUAGE
  source : String
  deriving DecidableEq, Repr

/-- The GL driver environment: answers to the completion-status polls
(`GL_COMPLETION_STATUS_KHR`), the result queries (`GL_COMPILE_STATUS`,
`GL_LINK_STATUS`), the compile info log, and the reflection data the driver
would report for the linked program. -/
structure Driver where
  compileComplete : Bool
  compileOk : Bool
  compileInfoLog : String
  linkComplete : Bool
  linkOk : Bool
  reflectedVars : List ResourceVar
  deriving DecidableEq, Repr

/-- `m_CreateAsynchronously`: the caller requested asynchronous compilation AND
the device supports it. -/
def createAsynchronously (cfg : BuilderCfg) : Bool :=
  cfg.asyncFlag && cfg.deviceAsyncSupport

/-- The compile completion poll in `HandleCompilingState`: driver-queried when
asynchronous, otherwise unconditionally `GL_TRUE`. -/
def compilePoll (cfg : BuilderCfg) (drv : Driver) : Bool :=
  if createAsynchronously cfg then drv.compileComplete else true

/-- The link completion poll in `HandleLinkingState`: driver-queried when
asynchronous, otherwise unconditionally `GL_TRUE`. -/
def linkPoll (cfg : BuilderCfg) (drv : Driver) : Bool :=
  if createAsynchronously cfg then drv.linkComplete else true

/-- Result of `ShaderGLImpl::GetCompileStatus`: the returned compile flag plus
its recorded side effects.  `diagnostics` is the data blob written to
`ppCompilerOutput`; `sourceDumped` records the full-source dump to the debug
log; `raised` records `LOG_ERROR_AND_THROW`. -/
structure CompileCheckResult where
  compiled : Bool
  diagnostics : Option String
  sourceDumped : Bool
  infoLogged : Bool
  errorLogged : Bool
  raised : Bool
  deriving DecidableEq, Repr

/-- `ShaderGLImpl::GetCompileStatus`.  The output data blob (produced only when
the info log is non-empty and an output pointer was given) holds the info log
followed by the full source string.  On failure with no output pointer the full
source is dumped to the log sink; with `ThrowOnError` the failure raises,
otherwise it is only logged. -/
def GetCompileStatus (source infoLog : String) (compileOk wantOutput throwOnError : Bool) :
    CompileCheckResult :=
  { compiled := compileOk
    diagnostics :=
      if infoLog.length > 0 && wantOutput then some (infoLog ++ source) else none
    sourceDumped := !compileOk && !wantOutput
    infoLogged := compileOk && !(infoLog.isEmpty)
    errorLogged := !compileOk && !throwOnError
    raised := !compileOk && throwOnError }

/-- Result of `ShaderGLImpl::GetProgamLinkStatus`: the link flag, whether the
shaders were detached from the program (success path), and the failure side
effects. -/
structure LinkCheckResult where
  linked : Bool
  detached : Bool
  errorLogged : Bool
  raised : Bool
  deriving DecidableEq, Repr

/-- `ShaderGLImpl::GetProgamLinkStatus` (name as in the source): on success the
shaders are detached; on failure the link log is reported, raising when
`ThrowOnError` is set. -/
def GetProgamLinkStatus (linkOk throwOnError : Bool) : LinkCheckResult :=
  { linked := linkOk
    detached := linkOk
    errorLogged := !linkOk && !throwOnError
    raised := !linkOk && throwOnError }

/-- Result of `ShaderGLImpl::LinkProgram`: whether the debug precondition
`VERIFY(!IsSeparableProgram || NumShaders == 1)` fired, whether
`GL_PROGRAM_SEPARABLE` was set before `glLinkProgram`, and how many shaders
were attached. -/
structure LinkProgramResult where
  verifyFault : Bool
  separableSetBeforeLink : Bool
  attachedCount : Nat
  deriving DecidableEq, Repr

/-- `ShaderGLImpl::LinkProgram`. -/
def LinkProgram (numShaders : Nat) (isSeparableProgram : Bool) : LinkProgramResult :=
  { verifyFault := isSeparableProgram && !(numShaders == 1)
    separableSetBeforeLink := isSeparableProgram
    attachedCount := numShaders }

/-- `ShaderResourcesGL::LoadUniforms` as invoked by `HandleLinkingState`:
HLSL sources reflect samplers as separate (flag NONE), every other source
language reflects them as combined. -/
def LoadUniforms (cfg : BuilderCfg) (drv : Driver) : ShaderResourcesGL :=
  { samplerFlag :=
      if cfg.sourceLanguage = SHADER_SOURCE_LANGUAGE.HLSL then
        PIPELINE_RESOURCE_FLAG.NONE
      else
        PIPELINE_RESOURCE_FLAG.COMBINED_SAMPLER
    loadConstantBufferReflection := cfg.loadConstantBufferReflection
    vars := drv.reflectedVars }

/-- The mutable facade fields touched by the builder: the shader object handle
`m_GLShaderObj` (set = non-null) and `m_pShaderResources`. -/
structure ShaderSt where
  glShaderObj : Bool
  resources : Option ShaderResourcesGL
  deriving DecidableEq, Repr

/-- The mutable builder fields: the lazily created temporary program
`m_Program` and `m_State`. -/
structure BuilderSt where
  programCreated : Bool
  state : State
  deriving DecidableEq, Repr

/-- Builder state at construction: `m_Program{false}`, `m_State = Default`. -/
def initialBuilder : BuilderSt :=
  { programCreated := false, state := State.Default }

/-- Outcome of `ShaderBuilder::HandleCompilingState`. -/
structure HCResult where
  state : State
  raised : Bool
  check : Option CompileCheckResult
  deriving DecidableEq, Repr

/-- `ShaderBuilder::HandleCompilingState`: if the compile poll reports
completion, run `GetCompileStatus` with `ThrowOnError = !m_CreateAsynchronously`
and move to Linking or Failed; when the check raises, the state assignment
never executes. -/
def HandleCompilingState (cfg : BuilderCfg) (drv : Driver) : HCResult :=
  if compilePoll cfg drv then
    let cc := GetCompileStatus cfg.source drv.compileInfoLog drv.compileOk
      cfg.wantCompilerOutput (!(createAsynchronously cfg))
    { state :=
        if cc.raised then State.Compiling
        else if cc.compiled then State.Linking
        else State.Failed
      raised := cc.raised
      check := some cc }
  else
    { state := State.Compiling, raised := false, check := none }

/-- Outcome of `ShaderBuilder::HandleLinkingState`. -/
structure HLResult where
  state : State
  programCreated : Bool
  raised : Bool
  resources : Option ShaderResourcesGL
  check : Option LinkCheckResult
  deriving DecidableEq, Repr

/-- `ShaderBuilder::HandleLinkingState`: with separable-program support, create
the program once (`LinkProgram(ThisShader, 1, true)`), poll link completion,
then check the link result with `ThrowOnError = !m_CreateAsynchronously`;
on success load reflection and complete, on failure fail.  Without
separable-program support, complete immediately. -/
def HandleLinkingState (cfg : BuilderCfg) (drv : Driver) (programCreated : Bool) : HLResult :=
  if cfg.separablePrograms then
    let pc := true
    if linkPoll cfg drv then
      let lc := GetProgamLinkStatus drv.linkOk (!(createAsynchronously cfg))
      if lc.raised then
        { state := State.Linking, programCreated := pc, raised := true,
          resources := none, check := some lc }
      else if lc.linked then
        { state := State.Complete, programCreated := pc, raised := false,
          resources := some (LoadUniforms cfg drv), check := some lc }
      else
        { state := State.Failed, programCreated := pc, raised := false,
          resources := none, check := some lc }
    else
      { state := State.Linking, programCreated := pc, raised := false,
        resources := none, check := none }
  else
    { state := State.Complete, programCreated := programCreated, raised := false,
      resources := none, check := none }

/-- Everything a single `Tick` call produced: the builder and facade state at
return (or at the throw point when `raised`), the result records of the checks
it invoked, and the returned boolean (meaningful only when not raised). -/
structure TickResult where
  builder : BuilderSt
  shader : ShaderSt
  raised : Bool
  compileCheck : Option CompileCheckResult
  linkCheck : Option LinkCheckResult
  retVal : Bool
  deriving DecidableEq, Repr

/-- Tail of `ShaderBuilder::Tick` after the handlers: release `m_GLShaderObj`
when the state is Failed, and return whether the state is terminal. -/
def finishTick (b : BuilderSt) (sh : ShaderSt) (cc : Option CompileCheckResult)
    (lc : Option LinkCheckResult) : TickResult :=
  let sh1 := if b.state = State.Failed then { sh with glShaderObj := false } else sh
  { builder := b, shader := sh1, raised := false, compileCheck := cc, linkCheck := lc,
    retVal := decide (b.state = State.Complete) || decide (b.state = State.Failed) }

/-- The Linking stage of `ShaderBuilder::Tick` and everything after it. -/
def tickFromLinking (cfg : BuilderCfg) (drv : Driver) (b : BuilderSt) (sh : ShaderSt)
    (cc : Option CompileCheckResult) : TickResult :=
  if b.state = State.Linking then
    let hl := HandleLinkingState cfg drv b.programCreated
    if hl.raised then
      { builder := { programCreated := hl.programCreated, state := hl.state },
        shader := sh, raised := true, compileCheck := cc, linkCheck := hl.check,
        retVal := false }
    else
      let sh1 : ShaderSt :=
        { sh with resources :=
            match hl.resources with
            | some r => some r
            | none => sh.resources }
      finishTick { programCreated := hl.programCreated, state := hl.state } sh1 cc hl.check
  else
    finishTick b sh cc none

/-- `ShaderBuilder::Tick`: cascade Default into Compiling, Compiling into
Linking, then the Failed-state cleanup; each handler runs at most once per
call, on the state freshly reached within the same call.  A raising result
check aborts the call (C++ exception), leaving the state where it was. -/
def Tick (cfg : BuilderCfg) (drv : Driver) (b : BuilderSt) (sh : ShaderSt) : TickResult :=
  let s1 := if b.state = State.Default then State.Compiling else b.state
  if s1 = State.Compiling then
    let hc := HandleCompilingState cfg drv
    if hc.raised then
      { builder := { b with state := hc.state }, shader := sh, raised := true,
        compileCheck := hc.check, linkCheck := none, retVal := false }
    else
      tickFromLinking cfg drv { b with state := hc.state } sh hc.check
  else
    tickFromLinking cfg drv { b with state := s1 } sh none

/-- The facade as the builder sees it: `m_Builder` plus the mutable shader
fields. -/
structure Facade where
  builder : Option BuilderSt
  shader : ShaderSt
  deriving DecidableEq, Repr

/-- Result of `ShaderGLImpl::GetStatus`: the facade afterwards, the returned
status (`none` when an exception propagated out), and the tick outcome when a
tick was performed. -/
structure StatusResult where
  facade : Facade
  status : Option SHADER_STATUS
  raised : Bool
  tickInfo : Option TickResult
  deriving DecidableEq, Repr

/-- `ShaderGLImpl::GetStatus`: tick the builder if one exists, reset it when
the tick reports a terminal state, then derive the status from builder
presence and the shader handle. -/
def GetStatus (cfg : BuilderCfg) (drv : Driver) (f : Facade) : StatusResult :=
  match f.builder with
  | none =>
      { facade := f
        status := some (if f.shader.glShaderObj then SHADER_STATUS.READY
                        else SHADER_STATUS.FAILED)
        raised := false
        tickInfo := none }
  | some b =>
      let tk := Tick cfg drv b f.shader
      if tk.raised then
        { facade := { builder := some tk.builder, shader := tk.shader }
          status := none
          raised := true
          tickInfo := some tk }
      else
        let f1 : Facade :=
          { builder := if tk.retVal then none else some tk.builder, shader := tk.shader }
        { facade := f1
          status := some
            (match f1.builder with
             | some _ => SHADER_STATUS.COMPILING
             | none =>
                 if f1.shader.glShaderObj then SHADER_STATUS.READY
                 else SHADER_STATUS.FAILED)
          raised := false
          tickInfo := some tk }

/-- Result of the `ShaderGLImpl` constructor. -/
structure CtorResult where
  facade : Facade
  raised : Bool
  tickInfo : Option TickResult
  deriving DecidableEq, Repr

/-- `ShaderGLImpl::ShaderGLImpl`: the shader object is created and a builder is
made exactly when the device is non-null; with a non-null device the
constructor ends with a forced builder tick (`GetStatus()`), out of which an
exception may propagate. -/
def ShaderGLImplCtor (cfg : BuilderCfg) (drv : Driver) (deviceNonNull : Bool) : CtorResult :=
  let f0 : Facade :=
    { builder := if deviceNonNull then some initialBuilder else none
      shader := { glShaderObj := deviceNonNull, resources := none } }
  if deviceNonNull then
    let r := GetStatus cfg drv f0
    { facade := r.facade, raised := r.raised, tickInfo := r.tickInfo }
  else
    { facade := f0, raised := false, tickInfo := none }

/-- Result of a guarded resource query: `usageFault` records the
`DEV_CHECK_ERR(!m_Builder, ...)` guard firing, `indexFault` the out-of-range
check, `warned` the no-separable-programs warning, `value` the returned /
written data. -/
structure ResQuery (α : Type) where
  usageFault : Bool
  indexFault : Bool
  warned : Bool
  value : α
  deriving DecidableEq, Repr

/-- `ShaderGLImpl::GetResourceCount`. -/
def GetResourceCount (cfg : BuilderCfg) (f : Facade) : ResQuery Nat :=
  let fault := f.builder.isSome
  if cfg.separablePrograms then
    { usageFault := fault, indexFault := false, warned := false,
      value :=
        match f.shader.resources with
        | some r => r.vars.length
        | none => 0 }
  else
    { usageFault := fault, indexFault := false, warned := true, value := 0 }

/-- `ShaderGLImpl::GetResourceDesc`: `value` is the description written to the
output argument, `none` when nothing was written. -/
def GetResourceDesc (cfg : BuilderCfg) (f : Facade) (index : Nat) :
    ResQuery (Option ResourceVar) :=
  let fault := f.builder.isSome
  if cfg.separablePrograms then
    { usageFault := fault
      indexFault := decide ((GetResourceCount cfg f).value ≤ index)
      warned := false
      value :=
        match f.shader.resources with
        | some r => r.vars.get? index
        | none => none }
  else
    { usageFault := fault, indexFault := false, warned := true, value := none }

/-- `ShaderGLImpl::GetConstantBufferDesc`: uniform buffers go first in the
resource list, so the index is looked up directly. -/
def GetConstantBufferDesc (cfg : BuilderCfg) (f : Facade) (index : Nat) :
    ResQuery (Option String) :=
  let fault := f.builder.isSome
  if cfg.separablePrograms then
    if (GetResourceCount cfg f).value ≤ index then
      { usageFault := fault, indexFault := true, warned := false, value := none }
    else
      { usageFault := fault, indexFault := false, warned := false,
        value :=
          match f.shader.resources with
          | some r => (r.vars.get? index).bind ResourceVar.cbLayout
          | none => none }
  else
    { usageFault := fault, indexFault := false, warned := true, value := none }

/-- Forward progress rank of a builder state. -/
def State.rank : State → Nat
  | State.Default => 0
  | State.Compiling => 1
  | State.Linking => 2
  | State.Complete => 3
  | State.Failed => 3

/-! ### Concrete example inputs used by witnesses and counterexamples -/

/-- A blocking-mode configuration (async flag not set) on a backend with
separable-program support. -/
def cfgBlocking : BuilderCfg :=
  { loadConstantBufferReflection := false, asyncFlag := false,
    deviceAsyncSupport := true, wantCompilerOutput := false,
    separablePrograms := true, sourceLanguage := SHADER_SOURCE_LANGUAGE.GLSL,
    source := "src" }

/-- A non-blocking configuration (async flag set and device support present). -/
def cfgAsync : BuilderCfg :=
  { loadConstantBufferReflection := true, asyncFlag := true,
    deviceAsyncSupport := true, wantCompilerOutput := true,
    separablePrograms := true, sourceLanguage := SHADER_SOURCE_LANGUAGE.HLSL,
    source := "src" }

/-- A driver on which both compilation and linking succeed at once. -/
def drvAllOk : Driver :=
  { compileComplete := true, compileOk := true, compileInfoLog := "",
    linkComplete := true, linkOk := true, reflectedVars := [] }

/-- A driver on which compilation finishes but fails, emitting no info log. -/
def drvCompileFail : Driver :=
  { compileComplete := true, compileOk := false, compileInfoLog := "",
    linkComplete := true, linkOk := true, reflectedVars := [] }

/-- Facade shader fields right after the member initializers ran with a
non-null device. -/
def shaderInit : ShaderSt :=
  { glShaderObj := true, resources := none }

/-- A configuration whose backend lacks separable-program support. -/
def cfgNoSep : BuilderCfg :=
  { cfgBlocking with separablePrograms := false }

/-- A facade whose builder has already terminated successfully. -/
def facadeDone : Facade :=
  { builder := none, shader := shaderInit }

/-! ### Shared helper lemmas -/

/-- Case analysis of the first tick in blocking mode: a compile failure raises
out of the compile check with the state left at Compiling; a link failure (on a
separable backend) raises out of the link check with the state left at Linking;
otherwise the tick runs to Complete and returns true. -/
theorem tick_blocking_cases (cfg : BuilderCfg) (drv : Driver) (sh : ShaderSt)
    (hb : createAsynchronously cfg = false) :
    (drv.compileOk = false →
      (Tick cfg drv initialBuilder sh).raised = true
        ∧ (Tick cfg drv initialBuilder sh).builder.state = State.Compiling)
    ∧ (drv.compileOk = true → cfg.separablePrograms = true → drv.linkOk = false →
      (Tick cfg drv initialBuilder sh).raised = true
        ∧ (Tick cfg drv initialBuilder sh).builder.state = State.Linking)
    ∧ (drv.compileOk = true → (cfg.separablePrograms = false ∨ drv.linkOk = true) →
      (Tick cfg drv initialBuilder sh).raised = false
        ∧ (Tick cfg drv initialBuilder sh).builder.state = State.Complete
        ∧ (Tick cfg drv initialBuilder sh).retVal = true) := by
  cases hco : drv.compileOk <;> cases hsep : cfg.separablePrograms <;>
    cases hlo : drv.linkOk <;>
      simp [Tick, tickFromLinking, finishTick, HandleCompilingState, HandleLinkingState,
        compilePoll, linkPoll, hb, GetCompileStatus, GetProgamLinkStatus, initialBuilder,
        hco, hsep, hlo]

/-- `Tick` returns true exactly when the builder state after the call is
terminal; this also holds (with return value false) at the throw point of a
raising call, where the state is still Compiling or Linking. -/
theorem tick_retVal_eq (cfg : BuilderCfg) (drv : Driver) (b : BuilderSt) (sh : ShaderSt) :
    (Tick cfg drv b sh).retVal
      = (decide ((Tick cfg drv b sh).builder.state = State.Complete)
         || decide ((Tick cfg drv b sh).builder.state = State.Failed)) := by
  obtain ⟨pc, st⟩ := b
  cases hca : createAsynchronously cfg <;> cases hsep : cfg.separablePrograms <;>
    cases hcc : drv.compileComplete <;> cases hco : drv.compileOk <;>
    cases hlc : drv.linkComplete <;> cases hlo : drv.linkOk <;> cases st <;>
      simp [Tick, tickFromLinking, finishTick, HandleCompilingState, HandleLinkingState,
        compilePoll, linkPoll, GetCompileStatus, GetProgamLinkStatus,
        hca, hsep, hcc, hco, hlc, hlo]

/-- Whenever a tick ends in the Failed state the shader object handle has been
released inside that same tick. -/
theorem tick_failed_release (cfg : BuilderCfg) (drv : Driver) (b : BuilderSt) (sh : ShaderSt) :
    (Tick cfg drv b sh).builder.state = State.Failed →
    (Tick cfg drv b sh).shader.glShaderObj = false := by
  obtain ⟨pc, st⟩ := b
  cases hca : createAsynchronously cfg <;> cases hsep : cfg.separablePrograms <;>
    cases hcc : drv.compileComplete <;> cases hco : drv.compileOk <;>
    cases hlc : drv.linkComplete <;> cases hlo : drv.linkOk <;> cases st <;>
      simp [Tick, tickFromLinking, finishTick, HandleCompilingState, HandleLinkingState,
        compilePoll, linkPoll, GetCompileStatus, GetProgamLinkStatus,
        hca, hsep, hcc, hco, hlc, hlo]

/-- In non-blocking mode no tick ever raises: every result check is invoked
with `ThrowOnError = false`. -/
theorem tick_async_noraise (cfg : BuilderCfg) (drv : Driver) (b : BuilderSt) (sh : ShaderSt)
    (hca : createAsynchronously cfg = true) :
    (Tick cfg drv b sh).raised = false := by
  obtain ⟨pc, st⟩ := b
  cases hsep : cfg.separablePrograms <;>
    cases hcc : drv.compileComplete <;> cases hco : drv.compileOk <;>
    cases hlc : drv.linkComplete <;> cases hlo : drv.linkOk <;> cases st <;>
      simp [Tick, tickFromLinking, finishTick, HandleCompilingState, HandleLinkingState,
        compilePoll, linkPoll, GetCompileStatus, GetProgamLinkStatus,
        hca, hsep, hcc, hco, hlc, hlo]

/-! ### Claim theorems -/

/-- Claim C1 counterexample: in blocking mode with a failing compile the very
first tick after construction does NOT reach a terminal state — the result
check raises (`LOG_ERROR_AND_THROW`) and the state is left at Compiling, so
the claim "in blocking mode the very first tick() reaches Complete or Failed"
is false as stated. -/
theorem c1_counterexample :
    createAsynchronously cfgBlocking = false
      ∧ drvCompileFail.compileOk = false
      ∧ (Tick cfgBlocking drvCompileFail initialBuilder shaderInit).raised = true
      ∧ (Tick cfgBlocking drvCompileFail initialBuilder shaderInit).builder.state
          = State.Compiling
      ∧ ¬((Tick cfgBlocking drvCompileFail initialBuilder shaderInit).builder.state
            = State.Complete
          ∨ (Tick cfgBlocking drvCompileFail initialBuilder shaderInit).builder.state
            = State.Failed) := by
  refine ⟨rfl, rfl, ?_, ?_, ?_⟩ <;> decide

/-- Claim C1 (amended): a single tick cascades through freshly-reached states;
its return value is true exactly when the post-state is terminal; in blocking
mode the very first tick after construction reaches Complete whenever it
returns normally, and when it raises instead (leaving the state non-terminal)
the compile or the link result check had failed. -/
theorem c1_tick_cascade (cfg : BuilderCfg) (drv : Driver) (b : BuilderSt) (sh : ShaderSt)
    (hb : createAsynchronously cfg = false) :
    ((Tick cfg drv b sh).retVal
        = (decide ((Tick cfg drv b sh).builder.state = State.Complete)
           || decide ((Tick cfg drv b sh).builder.state = State.Failed)))
    ∧ ((Tick cfg drv initialBuilder sh).raised = false →
        (Tick cfg drv initialBuilder sh).builder.state = State.Complete
          ∧ (Tick cfg drv initialBuilder sh).retVal = true)
    ∧ ((Tick cfg drv initialBuilder sh).raised = true →
        drv.compileOk = false ∨ drv.linkOk = false) := by
  have h3 := tick_blocking_cases cfg drv sh hb
  refine ⟨tick_retVal_eq cfg drv b sh, ?_, ?_⟩
  · intro hr
    cases hco : drv.compileOk
    · have := (h3.1 hco).1
      simp [this] at hr
    · cases hsep : cfg.separablePrograms
      · exact ⟨(h3.2.2 hco (Or.inl hsep)).2.1, (h3.2.2 hco (Or.inl hsep)).2.2⟩
      · cases hlo : drv.linkOk
        · have := (h3.2.1 hco hsep hlo).1
          simp [this] at hr
        · exact ⟨(h3.2.2 hco (Or.inr hlo)).2.1, (h3.2.2 hco (Or.inr hlo)).2.2⟩
  · intro hr
    cases hco : drv.compileOk
    · exact Or.inl rfl
    · cases hlo : drv.linkOk
      · exact Or.inr rfl
      · have := (h3.2.2 hco (Or.inr hlo)).1
        simp [this] at hr

/-- Witness for amended C1: blocking configuration, all-OK driver. -/
theorem c1_tick_cascade_witness :
    createAsynchronously cfgBlocking = false
      ∧ (((Tick cfgBlocking drvAllOk initialBuilder shaderInit).retVal
        = (decide ((Tick cfgBlocking drvAllOk initialBuilder shaderInit).builder.state
              = State.Complete)
           || decide ((Tick cfgBlocking drvAllOk initialBuilder shaderInit).builder.state
              = State.Failed)))
      ∧ ((Tick cfgBlocking drvAllOk initialBuilder shaderInit).raised = false →
          (Tick cfgBlocking drvAllOk initialBuilder shaderInit).builder.state = State.Complete
            ∧ (Tick cfgBlocking drvAllOk initialBuilder shaderInit).retVal = true)
      ∧ ((Tick cfgBlocking drvAllOk initialBuilder shaderInit).raised = true →
          drvAllOk.compileOk = false ∨ drvAllOk.linkOk = false)) :=
  ⟨rfl, c1_tick_cascade cfgBlocking drvAllOk initialBuilder shaderInit rfl⟩

/-- Claim C3: non-blocking mode holds exactly when the async-compile flag was
passed AND the device advertises async-compile support (fixed at
construction); when that conjunction is false, both completion polls
unconditionally report complete and the first tick runs the whole state
machine in one call (terminating, or raising on a failed check). -/
theorem c3_mode_and_polls (cfg : BuilderCfg) (drv : Driver)
    (h : cfg.asyncFlag = false ∨ cfg.deviceAsyncSupport = false) :
    createAsynchronously cfg = (cfg.asyncFlag && cfg.deviceAsyncSupport)
      ∧ createAsynchronously cfg = false
      ∧ compilePoll cfg drv = true
      ∧ linkPoll cfg drv = true
      ∧ (∀ sh, (Tick cfg drv initialBuilder sh).raised = true
          ∨ (Tick cfg drv initialBuilder sh).retVal = true) := by
  have hb : createAsynchronously cfg = false := by
    rcases h with h1 | h1 <;> simp [createAsynchronously, h1]
  refine ⟨rfl, hb, by simp [compilePoll, hb], by simp [linkPoll, hb], ?_⟩
  intro sh
  have h3 := tick_blocking_cases cfg drv sh hb
  cases hco : drv.compileOk
  · exact Or.inl (h3.1 hco).1
  · cases hsep : cfg.separablePrograms
    · exact Or.inr (h3.2.2 hco (Or.inl hsep)).2.2
    · cases hlo : drv.linkOk
      · exact Or.inl (h3.2.1 hco hsep hlo).1
      · exact Or.inr (h3.2.2 hco (Or.inr hlo)).2.2

/-- Witness for C3: synchronous configuration, all-OK driver. -/
theorem c3_mode_and_polls_witness :
    (cfgBlocking.asyncFlag = false ∨ cfgBlocking.deviceAsyncSupport = false)
      ∧ (createAsynchronously cfgBlocking = (cfgBlocking.asyncFlag && cfgBlocking.deviceAsyncSupport)
        ∧ createAsynchronously cfgBlocking = false
        ∧ compilePoll cfgBlocking drvAllOk = true
        ∧ linkPoll cfgBlocking drvAllOk = true
        ∧ (∀ sh, (Tick cfgBlocking drvAllOk initialBuilder sh).raised = true
            ∨ (Tick cfgBlocking drvAllOk initialBuilder sh).retVal = true)) :=
  ⟨Or.inl rfl, c3_mode_and_polls cfgBlocking drvAllOk (Or.inl rfl)⟩

/-- Claim C8: each resource query faults (`DEV_CHECK_ERR`) exactly when a
builder still exists; with no builder on a backend without separable-program
support each query warns and yields the empty result (count 0, nothing
written, null layout) without faulting. -/
theorem c8_resource_query_guards (cfg : BuilderCfg) (f : Facade) (index : Nat) :
    ((GetResourceCount cfg f).usageFault = f.builder.isSome
      ∧ (GetResourceDesc cfg f index).usageFault = f.builder.isSome
      ∧ (GetConstantBufferDesc cfg f index).usageFault = f.builder.isSome)
    ∧ (f.builder = none → cfg.separablePrograms = false →
        (GetResourceCount cfg f).usageFault = false
        ∧ (GetResourceCount cfg f).warned = true
        ∧ (GetResourceCount cfg f).value = 0
        ∧ (GetResourceDesc cfg f index).warned = true
        ∧ (GetResourceDesc cfg f index).value = none
        ∧ (GetConstantBufferDesc cfg f index).warned = true
        ∧ (GetConstantBufferDesc cfg f index).value = none) := by
  constructor
  · refine ⟨?_, ?_, ?_⟩ <;>
      · simp only [GetResourceCount, GetResourceDesc, GetConstantBufferDesc]
        split <;> (try split) <;> simp
  · intro hb hsep
    simp [GetResourceCount, GetResourceDesc, GetConstantBufferDesc, hb, hsep]

/-- Witness for C8: builder already gone, backend without separable programs. -/
theorem c8_resource_query_guards_witness :
    (facadeDone.builder = none ∧ cfgNoSep.separablePrograms = false)
      ∧ (((GetResourceCount cfgNoSep facadeDone).usageFault = facadeDone.builder.isSome
        ∧ (GetResourceDesc cfgNoSep facadeDone 0).usageFault = facadeDone.builder.isSome
        ∧ (GetConstantBufferDesc cfgNoSep facadeDone 0).usageFault = facadeDone.builder.isSome)
      ∧ (facadeDone.builder = none → cfgNoSep.separablePrograms = false →
          (GetResourceCount cfgNoSep facadeDone).usageFault = false
          ∧ (GetResourceCount cfgNoSep facadeDone).warned = true
          ∧ (GetResourceCount cfgNoSep facadeDone).value = 0
          ∧ (GetResourceDesc cfgNoSep facadeDone 0).warned = true
          ∧ (GetResourceDesc cfgNoSep facadeDone 0).value = none
          ∧ (GetConstantBufferDesc cfgNoSep facadeDone 0).warned = true
          ∧ (GetConstantBufferDesc cfgNoSep facadeDone 0).value = none)) :=
  ⟨⟨rfl, rfl⟩, c8_resource_query_guards cfgNoSep facadeDone 0⟩

/-- Claim C7: calling the link operation with the separable-program flag set
and a number of units different from one trips the debug precondition check
(`VERIFY(!IsSeparableProgram || NumShaders == 1)`), a programming-error fault;
with exactly one unit no fault occurs. -/
theorem c7_separable_single_unit (numShaders : Nat) (h : numShaders ≠ 1) :
    (LinkProgram numShaders true).verifyFault = true
      ∧ (LinkProgram 1 true).verifyFault = false := by
  refine ⟨?_, rfl⟩
  simp [LinkProgram, h]

/-- Witness for C7 at two shader units. -/
theorem c7_separable_single_unit_witness :
    (2 : Nat) ≠ 1 ∧ ((LinkProgram 2 true).verifyFault = true
      ∧ (LinkProgram 1 true).verifyFault = false) :=
  ⟨by decide, c7_separable_single_unit 2 (by decide)⟩

/-- Claim C9: for a successful link (separable backend, link poll complete,
link status OK) the tick completes and stores reflection data loaded with the
sampler-combining policy selected solely by the source dialect: HLSL gets
separate samplers (flag NONE), every other dialect gets combined samplers. -/
theorem c9_sampler_policy (cfg : BuilderCfg) (drv : Driver) (pc : Bool) (sh : ShaderSt)
    (hsep : cfg.separablePrograms = true) (hpoll : linkPoll cfg drv = true)
    (hok : drv.linkOk = true) :
    (Tick cfg drv { programCreated := pc, state := State.Linking } sh).builder.state
        = State.Complete
      ∧ (Tick cfg drv { programCreated := pc, state := State.Linking } sh).shader.resources
        = some (LoadUniforms cfg drv)
      ∧ (LoadUniforms cfg drv).samplerFlag =
        (if cfg.sourceLanguage = SHADER_SOURCE_LANGUAGE.HLSL then PIPELINE_RESOURCE_FLAG.NONE
         else PIPELINE_RESOURCE_FLAG.COMBINED_SAMPLER) := by
  refine ⟨?_, ?_, rfl⟩ <;>
    simp [Tick, tickFromLinking, finishTick, HandleLinkingState, hsep, hpoll, hok,
      GetProgamLinkStatus]

/-- Witness for C9 at a concrete HLSL configuration with an all-OK driver. -/
theorem c9_sampler_policy_witness :
    (cfgAsync.separablePrograms = true ∧ linkPoll cfgAsync drvAllOk = true
        ∧ drvAllOk.linkOk = true)
      ∧ ((Tick cfgAsync drvAllOk { programCreated := false, state := State.Linking }
            shaderInit).builder.state = State.Complete
        ∧ (Tick cfgAsync drvAllOk { programCreated := false, state := State.Linking }
            shaderInit).shader.resources = some (LoadUniforms cfgAsync drvAllOk)
        ∧ (LoadUniforms cfgAsync drvAllOk).samplerFlag =
          (if cfgAsync.sourceLanguage = SHADER_SOURCE_LANGUAGE.HLSL then
            PIPELINE_RESOURCE_FLAG.NONE
           else PIPELINE_RESOURCE_FLAG.COMBINED_SAMPLER)) :=
  ⟨⟨rfl, rfl, rfl⟩,
    c9_sampler_policy cfgAsync drvAllOk false shaderInit rfl rfl rfl⟩

/-- Claim C2: `GetStatus` ticks exactly when a builder exists, destroys the
builder in the same call in which the tick reports a terminal state, and the
returned status is Compiling exactly when a builder remains, Ready exactly
when no builder remains and the shader handle is set, Failed exactly when no
builder remains and the handle is unset; any tick that ends in Failed has
released the shader handle inside that tick. -/
theorem c2_getStatus_contract (cfg : BuilderCfg) (drv : Driver) (f : Facade) :
    (f.builder = none →
      (GetStatus cfg drv f).tickInfo = none ∧ (GetStatus cfg drv f).facade = f)
    ∧ (∀ b, f.builder = some b →
        (GetStatus cfg drv f).tickInfo = some (Tick cfg drv b f.shader))
    ∧ (∀ b, f.builder = some b → (Tick cfg drv b f.shader).raised = false →
        ((GetStatus cfg drv f).facade.builder = none
          ↔ (Tick cfg drv b f.shader).retVal = true))
    ∧ ((GetStatus cfg drv f).raised = false →
        ((GetStatus cfg drv f).status = some SHADER_STATUS.COMPILING
            ↔ (GetStatus cfg drv f).facade.builder.isSome = true)
        ∧ ((GetStatus cfg drv f).status = some SHADER_STATUS.READY
            ↔ (GetStatus cfg drv f).facade.builder = none
              ∧ (GetStatus cfg drv f).facade.shader.glShaderObj = true)
        ∧ ((GetStatus cfg drv f).status = some SHADER_STATUS.FAILED
            ↔ (GetStatus cfg drv f).facade.builder = none
              ∧ (GetStatus cfg drv f).facade.shader.glShaderObj = false))
    ∧ (∀ b2 sh2, (Tick cfg drv b2 sh2).builder.state = State.Failed →
        (Tick cfg drv b2 sh2).shader.glShaderObj = false) := by
  refine ⟨?_, ?_, ?_, ?_, fun b2 sh2 => tick_failed_release cfg drv b2 sh2⟩
  · intro hb
    simp [GetStatus, hb]
  · intro b hb
    simp only [GetStatus, hb]
    split <;> simp
  · intro b hb hr
    simp only [GetStatus, hb, hr]
    cases hrv : (Tick cfg drv b f.shader).retVal <;> simp [hrv]
  · intro hnr
    cases hfb : f.builder with
    | none =>
        cases hobj : f.shader.glShaderObj <;> simp [GetStatus, hfb, hobj]
    | some b =>
        simp only [GetStatus, hfb] at hnr ⊢
        cases hr : (Tick cfg drv b f.shader).raised
        · simp only [hr] at hnr ⊢
          cases hrv : (Tick cfg drv b f.shader).retVal
          · simp [hrv]
          · cases hobj : (Tick cfg drv b f.shader).shader.glShaderObj <;>
              simp [hrv, hobj]
        · simp [hr] at hnr

/-- A facade with a live builder, as right after the member initializers. -/
def facadeLive : Facade :=
  { builder := some initialBuilder, shader := shaderInit }

/-- Witness for C2: with a live builder in blocking mode on an all-OK driver,
one status query ticks to completion and the classification yields Ready. -/
theorem c2_getStatus_contract_witness :
    (GetStatus cfgBlocking drvAllOk facadeLive).status = some SHADER_STATUS.READY :=
  ((c2_getStatus_contract cfgBlocking drvAllOk facadeLive).2.2.2.1 (by decide)).2.1.mpr
    ⟨by decide, by decide⟩

/-- Claim C5: the builder state only moves forward along
Default -> Compiling -> Linking -> {Complete, Failed}: no tick lowers the
progress rank or leaves a terminal state; in non-blocking mode a tick before
the driver reports compile (resp. link) completion leaves the state unchanged
at Compiling (resp. Linking, on a separable backend — on a backend without
separable programs no tick ever ends in Linking, so that case is vacuous). -/
theorem c5_forward_only (cfg : BuilderCfg) (drv : Driver) (b : BuilderSt) (sh : ShaderSt) :
    State.rank b.state ≤ State.rank (Tick cfg drv b sh).builder.state
    ∧ ((b.state = State.Complete ∨ b.state = State.Failed) →
        (Tick cfg drv b sh).builder.state = b.state)
    ∧ (createAsynchronously cfg = true → drv.compileComplete = false →
        b.state = State.Compiling →
        (Tick cfg drv b sh).builder.state = State.Compiling)
    ∧ (createAsynchronously cfg = true → drv.linkComplete = false →
        b.state = State.Linking → cfg.separablePrograms = true →
        (Tick cfg drv b sh).builder.state = State.Linking)
    ∧ (cfg.separablePrograms = false →
        (Tick cfg drv b sh).builder.state ≠ State.Linking) := by
  obtain ⟨pc, st⟩ := b
  cases hca : createAsynchronously cfg <;> cases hsep : cfg.separablePrograms <;>
    cases hcc : drv.compileComplete <;> cases hco : drv.compileOk <;>
    cases hlc : drv.linkComplete <;> cases hlo : drv.linkOk <;> cases st <;>
      simp [Tick, tickFromLinking, finishTick, HandleCompilingState, HandleLinkingState,
        compilePoll, linkPoll, GetCompileStatus, GetProgamLinkStatus, State.rank,
        hca, hsep, hcc, hco, hlc, hlo]

/-- Witness for C5 at a concrete non-blocking configuration. -/
theorem c5_forward_only_witness :
    State.rank initialBuilder.state
        ≤ State.rank (Tick cfgAsync drvAllOk initialBuilder shaderInit).builder.state
    ∧ ((initialBuilder.state = State.Complete ∨ initialBuilder.state = State.Failed) →
        (Tick cfgAsync drvAllOk initialBuilder shaderInit).builder.state = initialBuilder.state)
    ∧ (createAsynchronously cfgAsync = true → drvAllOk.compileComplete = false →
        initialBuilder.state = State.Compiling →
        (Tick cfgAsync drvAllOk initialBuilder shaderInit).builder.state = State.Compiling)
    ∧ (createAsynchronously cfgAsync = true → drvAllOk.linkComplete = false →
        initialBuilder.state = State.Linking → cfgAsync.separablePrograms = true →
        (Tick cfgAsync drvAllOk initialBuilder shaderInit).builder.state = State.Linking)
    ∧ (cfgAsync.separablePrograms = false →
        (Tick cfgAsync drvAllOk initialBuilder shaderInit).builder.state ≠ State.Linking) :=
  c5_forward_only cfgAsync drvAllOk initialBuilder shaderInit

/-- Claim C4: in non-blocking mode the result checks run with raise-on-failure
false and no tick ever raises — a failure is recorded as the Failed state and
surfaced only through the status query; in blocking mode a failing compile or
link result check raises to the immediate caller. -/
theorem c4_failure_propagation (cfg : BuilderCfg) (drv : Driver) :
    (createAsynchronously cfg = true →
      (GetCompileStatus cfg.source drv.compileInfoLog drv.compileOk cfg.wantCompilerOutput
          (!(createAsynchronously cfg))).raised = false
      ∧ (GetProgamLinkStatus drv.linkOk (!(createAsynchronously cfg))).raised = false
      ∧ ∀ b sh, (Tick cfg drv b sh).raised = false)
    ∧ (createAsynchronously cfg = true → drv.compileComplete = true → drv.compileOk = false →
        ∀ pc sh,
          (Tick cfg drv { programCreated := pc, state := State.Compiling } sh).builder.state
              = State.Failed
          ∧ (GetStatus cfg drv
              { builder := some { programCreated := pc, state := State.Compiling },
                shader := sh }).status = some SHADER_STATUS.FAILED)
    ∧ (createAsynchronously cfg = false → drv.compileOk = false →
        (GetCompileStatus cfg.source drv.compileInfoLog drv.compileOk cfg.wantCompilerOutput
          (!(createAsynchronously cfg))).raised = true)
    ∧ (createAsynchronously cfg = false → drv.linkOk = false →
        (GetProgamLinkStatus drv.linkOk (!(createAsynchronously cfg))).raised = true) := by
  refine ⟨?_, ?_, ?_, ?_⟩
  · intro hca
    exact ⟨by simp [GetCompileStatus, hca], by simp [GetProgamLinkStatus, hca],
      fun b sh => tick_async_noraise cfg drv b sh hca⟩
  · intro hca hcc hco pc sh
    constructor <;>
      simp [GetStatus, Tick, tickFromLinking, finishTick, HandleCompilingState,
        compilePoll, GetCompileStatus, hca, hcc, hco]
  · intro hca hco
    simp [GetCompileStatus, hca, hco]
  · intro hca hlo
    simp [GetProgamLinkStatus, hca, hlo]

/-- Witness for C4: non-blocking configuration with a failed compilation —
nothing raises and the status query reports Failed. -/
theorem c4_failure_propagation_witness :
    (createAsynchronously cfgAsync = true ∧ drvCompileFail.compileComplete = true
        ∧ drvCompileFail.compileOk = false)
      ∧ ((Tick cfgAsync drvCompileFail { programCreated := false, state := State.Compiling }
            shaderInit).builder.state = State.Failed
        ∧ (GetStatus cfgAsync drvCompileFail
            { builder := some { programCreated := false, state := State.Compiling },
              shader := shaderInit }).status = some SHADER_STATUS.FAILED) :=
  ⟨⟨rfl, rfl, rfl⟩,
    (c4_failure_propagation cfgAsync drvCompileFail).2.1 rfl rfl rfl false shaderInit⟩

/-- Claim C6 counterexample: a malformed source on a driver that emits an
empty info log, with a diagnostics buffer requested: the compile result check
reports failure yet produces NO diagnostics buffer at all (the code only
allocates the buffer when the info log is non-empty), so "when a diagnostics
output buffer was requested the check produces a non-empty buffer" is false as
stated. -/
theorem c6_counterexample :
    (GetCompileStatus "bad source" "" false true true).compiled = false
      ∧ (GetCompileStatus "bad source" "" false true true).diagnostics = none := by
  constructor <;> rfl

/-- Claim C6 (amended): for a malformed source the status query reports Failed
once the compile poll completes (shown in non-blocking mode; blocking mode
raises instead, see C1/C4); when a diagnostics buffer was requested AND the
driver info log is non-empty, the check produces the buffer holding the log
text followed by the full source (hence non-empty); when no buffer was
requested, the full source is dumped to the trace/log sink. -/
theorem c6_malformed_diagnostics (cfg : BuilderCfg) (drv : Driver) (t : Bool)
    (hfail : drv.compileOk = false) :
    (createAsynchronously cfg = true → drv.compileComplete = true →
      ∀ pc sh, (GetStatus cfg drv
          { builder := some { programCreated := pc, state := State.Compiling },
            shader := sh }).status = some SHADER_STATUS.FAILED)
    ∧ (cfg.wantCompilerOutput = true → 0 < drv.compileInfoLog.length →
        (GetCompileStatus cfg.source drv.compileInfoLog drv.compileOk
            cfg.wantCompilerOutput t).diagnostics
            = some (drv.compileInfoLog ++ cfg.source)
          ∧ 0 < (drv.compileInfoLog ++ cfg.source).length)
    ∧ (cfg.wantCompilerOutput = false →
        (GetCompileStatus cfg.source drv.compileInfoLog drv.compileOk
            cfg.wantCompilerOutput t).sourceDumped = true) := by
  refine ⟨?_, ?_, ?_⟩
  · intro hca hcc pc sh
    simp [GetStatus, Tick, tickFromLinking, finishTick, HandleCompilingState,
      compilePoll, GetCompileStatus, hca, hcc, hfail]
  · intro hw hlen
    refine ⟨by simp [GetCompileStatus, hw, hlen], ?_⟩
    rw [String.length_append]
    omega
  · intro hw
    simp [GetCompileStatus, hfail, hw]

/-- A driver failing compilation with a non-empty info log. -/
def drvCompileFailLog : Driver :=
  { compileComplete := true, compileOk := false, compileInfoLog := "err",
    linkComplete := true, linkOk := true, reflectedVars := [] }

/-- Witness for amended C6: failed compile with log "err", buffer requested. -/
theorem c6_malformed_diagnostics_witness :
    drvCompileFailLog.compileOk = false
      ∧ ((createAsynchronously cfgAsync = true → drvCompileFailLog.compileComplete = true →
          ∀ pc sh, (GetStatus cfgAsync drvCompileFailLog
              { builder := some { programCreated := pc, state := State.Compiling },
                shader := sh }).status = some SHADER_STATUS.FAILED)
        ∧ (cfgAsync.wantCompilerOutput = true → 0 < drvCompileFailLog.compileInfoLog.length →
            (GetCompileStatus cfgAsync.source drvCompileFailLog.compileInfoLog
                drvCompileFailLog.compileOk cfgAsync.wantCompilerOutput false).diagnostics
                = some (drvCompileFailLog.compileInfoLog ++ cfgAsync.source)
              ∧ 0 < (drvCompileFailLog.compileInfoLog ++ cfgAsync.source).length)
        ∧ (cfgAsync.wantCompilerOutput = false →
            (GetCompileStatus cfgAsync.source drvCompileFailLog.compileInfoLog
                drvCompileFailLog.compileOk cfgAsync.wantCompilerOutput false).sourceDumped
              = true)) :=
  ⟨rfl, c6_malformed_diagnostics cfgAsync drvCompileFailLog false rfl⟩

/-- Claim C10: with a non-null device the constructor itself performs the
first status query, recording a tick of the freshly built builder; in blocking
mode construction therefore finishes with the builder already terminated
(destroyed) when it returns normally, and it raises out of the constructor
exactly when the compile check fails or (on a separable backend) the link
check fails. -/
theorem c10_ctor_forces_first_tick (cfg : BuilderCfg) (drv : Driver)
    (hb : createAsynchronously cfg = false) :
    (ShaderGLImplCtor cfg drv true).tickInfo
        = some (Tick cfg drv initialBuilder { glShaderObj := true, resources := none })
    ∧ ((ShaderGLImplCtor cfg drv true).raised = false →
        (ShaderGLImplCtor cfg drv true).facade.builder = none)
    ∧ ((ShaderGLImplCtor cfg drv true).raised = true
        ↔ (drv.compileOk = false ∨ (cfg.separablePrograms = true ∧ drv.linkOk = false))) := by
  cases hco : drv.compileOk <;> cases hsep : cfg.separablePrograms <;>
    cases hlo : drv.linkOk <;>
      simp [ShaderGLImplCtor, GetStatus, Tick, tickFromLinking, finishTick,
        HandleCompilingState, HandleLinkingState, compilePoll, linkPoll,
        GetCompileStatus, GetProgamLinkStatus, initialBuilder, hb, hco, hsep, hlo]

/-- Witness for C10: blocking mode, all-OK driver — the constructor returns
with the builder already gone and nothing raised. -/
theorem c10_ctor_forces_first_tick_witness :
    createAsynchronously cfgBlocking = false
      ∧ ((ShaderGLImplCtor cfgBlocking drvAllOk true).tickInfo
          = some (Tick cfgBlocking drvAllOk initialBuilder
              { glShaderObj := true, resources := none })
        ∧ ((ShaderGLImplCtor cfgBlocking drvAllOk true).raised = false →
            (ShaderGLImplCtor cfgBlocking drvAllOk true).facade.builder = none)
        ∧ ((ShaderGLImplCtor cfgBlocking drvAllOk true).raised = true
            ↔ (drvAllOk.compileOk = false
              ∨ (cfgBlocking.separablePrograms = true ∧ drvAllOk.linkOk = false)))) :=
  ⟨rfl, c10_ctor_forces_first_tick cfgBlocking drvAllOk rfl⟩

end ShaderGL
